import Mathlib

/-!
Verification of `mrpt::containers::vector_with_small_size_optimization`
(src/libs/containers/include/mrpt/containers/vector_with_small_size_optimization.h).

The container keeps a `std::vector` (`m_v`, the Large storage), a fixed
`std::array` of `small_size` slots (`m_a`, the Small storage), a flag
`m_is_small` and a logical element count `m_size`.  We embed the element
storages as Lean lists, the compile-time capacity `small_size` as an explicit
parameter `K`, and the default-constructed element value (what
`std::vector::resize` writes into newly appended slots) as a parameter `d`.
-/

namespace MrptContainers

/-- State of a `vector_with_small_size_optimization<VAL, small_size>` object:
`m_v` is the heap vector (Large storage, its list length = `m_v.size()`),
`m_a` is the inline array (Small storage, its list length = `small_size`),
`m_is_small` and `m_size` are the mode flag and logical size fields. -/
structure vector_with_small_size_optimization (α : Type) where
  m_v : List α
  m_a : List α
  m_is_small : Bool
  m_size : Nat
deriving DecidableEq, Repr

abbrev VecSSO := vector_with_small_size_optimization

/-- Effect of `std::vector::resize(n)` on contents `v` with default value `d`:
keeps the first `n` existing elements, appends value-initialized slots. -/
def listResize (v : List α) (n : Nat) (d : α) : List α :=
  v.take n ++ List.replicate (n - v.length) d

/-- Effect of `std::copy(src.begin(), src.begin() + n, dst.begin())`: overwrite the
first `n` slots of `dst` with the first `n` elements of `src`, keeping the
rest of `dst`.  (Reading past `src`'s end would be UB in C++; the claims only
use it with `n ≤ src.length`.) -/
def copyN (src dst : List α) (n : Nat) : List α :=
  src.take n ++ dst.drop n

namespace vector_with_small_size_optimization

/-- A default-constructed container: `m_is_small = true`, `m_size = 0`,
empty heap vector, `small_size` default slots in the array. -/
def init (K : Nat) (d : α) : VecSSO α :=
  ⟨[], List.replicate K d, true, 0⟩

/-- Member `resize(n)` (header lines 131-150): if `m_size != 0`, migrate on a mode
crossing (`m_v.assign(m_a.begin(), m_a.begin()+m_size)` when growing past
`K`; `std::copy(m_v.begin(), m_v.begin()+n, m_a.begin())` when shrinking to
`≤ K`); then set `m_size = n` and `m_is_small = (n <= small_size)`; finally,
if not small, `m_v.resize(m_size)`. -/
def resize (K : Nat) (d : α) (s : VecSSO α) (n : Nat) : VecSSO α :=
  let s1 :=
    if s.m_size ≠ 0 then
      if s.m_is_small && decide (n > K) then
        { s with m_v := s.m_a.take s.m_size }
      else if !s.m_is_small && decide (n ≤ K) then
        { s with m_a := copyN s.m_v s.m_a n }
      else s
    else s
  let s2 := { s1 with m_size := n, m_is_small := decide (n ≤ K) }
  if !s2.m_is_small then { s2 with m_v := listResize s2.m_v n d } else s2

/-- Member `size()`. -/
def size (s : VecSSO α) : Nat := s.m_size

/-- Member `operator[](n)` as a read: dispatch on the mode flag to the active
storage (`m_a[n]` or `m_v[n]`); out-of-range access is UB in C++, modelled
with the default value `d`. -/
def idx (d : α) (s : VecSSO α) (n : Nat) : α :=
  if s.m_is_small then s.m_a.getD n d else s.m_v.getD n d

/-- Writing `operator[](n) = v`: store through the active storage. -/
def setIdx (s : VecSSO α) (n : Nat) (v : α) : VecSSO α :=
  if s.m_is_small then { s with m_a := s.m_a.set n v }
  else { s with m_v := s.m_v.set n v }

/-- Member `swap(x)` (header lines 174-196), returning the pair
(state of `*this`, state of `x`) after the call.  Four mode pairings:
both small swaps the arrays; both large swaps the vectors; mixed cases copy
the small side's live prefix across the arrays and swap the vectors; the
`size` and mode fields are exchanged last.  (`m_is_small & x.m_is_small`
uses bitwise `&` on `bool` in the source, equivalent to `&&`.) -/
def swap (s x : VecSSO α) : VecSSO α × VecSSO α :=
  let p :=
    if s.m_is_small && x.m_is_small then
      ({ s with m_a := x.m_a }, { x with m_a := s.m_a })
    else if !s.m_is_small && !x.m_is_small then
      ({ s with m_v := x.m_v }, { x with m_v := s.m_v })
    else if !s.m_is_small && x.m_is_small then
      ({ s with m_a := copyN x.m_a s.m_a x.m_size, m_v := x.m_v },
       { x with m_v := s.m_v })
    else
      ({ s with m_v := x.m_v },
       { x with m_v := s.m_v, m_a := copyN s.m_a x.m_a s.m_size })
  ({ p.1 with m_size := x.m_size, m_is_small := x.m_is_small },
   { p.2 with m_size := s.m_size, m_is_small := s.m_is_small })

/-- The live element sequence a caller can observe through `operator[]`:
the first `m_size` elements of the active storage. -/
def visible (s : VecSSO α) : List α :=
  (if s.m_is_small then s.m_a else s.m_v).take s.m_size

/-- All caller-observable state: mode flag, logical size, live elements. -/
def observable (s : VecSSO α) : Bool × Nat × List α :=
  (s.m_is_small, s.m_size, visible s)

/-- The mode/size invariant of the spec: `Mode == Small ⟺ size ≤ K`. -/
def ModeInv (K : Nat) (s : VecSSO α) : Prop :=
  s.m_is_small = decide (s.m_size ≤ K)

/-- Well-formedness of a container state, as established by the constructor
and maintained by the operations: the inline array has exactly `K` slots,
the mode flag matches `m_size ≤ K`, and in Large mode the heap vector's own
length equals the logical size. -/
def WF (K : Nat) (s : VecSSO α) : Prop :=
  s.m_a.length = K ∧ s.m_is_small = decide (s.m_size ≤ K) ∧
    (s.m_is_small = false → s.m_v.length = s.m_size)

instance (K : Nat) (s : VecSSO Nat) : Decidable (WF K s) := by
  unfold WF; infer_instance

end vector_with_small_size_optimization

/-- The iterator (header lines 56-126): it wraps a raw pointer `m_ptr` into
one storage buffer.  We embed the pointer as the buffer it points into plus a
(signed) element offset. -/
structure iteratorImpl (α : Type) where
  buf : List α
  m_ptr : Int
deriving DecidableEq, Repr

namespace iteratorImpl

/-- Member `operator*()`: read through the pointer (UB outside the buffer, modelled
with the default value `d`). -/
def deref (d : α) (it : iteratorImpl α) : α :=
  it.buf.getD it.m_ptr.toNat d

/-- Prefix `operator++()` (lines 74-79): `self i = *this; m_ptr++; return i`.
Result is (returned iterator, state of `*this` after the call). -/
def preInc (it : iteratorImpl α) : iteratorImpl α × iteratorImpl α :=
  (it, { it with m_ptr := it.m_ptr + 1 })

/-- Prefix `operator--()` (lines 80-85): `self i = *this; m_ptr--; return i`. -/
def preDec (it : iteratorImpl α) : iteratorImpl α × iteratorImpl α :=
  (it, { it with m_ptr := it.m_ptr - 1 })

/-- Postfix `operator++(int)` (lines 86-90): `m_ptr++; return *this`.
Result is (returned iterator, state of `*this` after the call). -/
def postInc (it : iteratorImpl α) : iteratorImpl α × iteratorImpl α :=
  let j := { it with m_ptr := it.m_ptr + 1 }
  (j, j)

/-- Postfix `operator--(int)` (lines 91-95): `m_ptr--; return *this`. -/
def postDec (it : iteratorImpl α) : iteratorImpl α × iteratorImpl α :=
  let j := { it with m_ptr := it.m_ptr - 1 }
  (j, j)

/-- Member `operator-(const self& o)`: pointer difference. -/
def sub (a b : iteratorImpl α) : Int := a.m_ptr - b.m_ptr

end iteratorImpl

namespace vector_with_small_size_optimization

/-- Member `begin()` (lines 198-202): a fresh iterator at the start of the active
storage (`m_a.data()` or `m_v.data()`). -/
def beginIt (s : VecSSO α) : iteratorImpl α :=
  ⟨if s.m_is_small then s.m_a else s.m_v, 0⟩

/-- Member `end()` (lines 204-211): an iterator at `data() + m_size` of the active
storage. -/
def endIt (s : VecSSO α) : iteratorImpl α :=
  ⟨if s.m_is_small then s.m_a else s.m_v, (s.m_size : Int)⟩

/-- Read `k` elements starting at iterator `it`, advancing with the increment
operator after each dereference (the state component of `operator++`). -/
def readN (d : α) : iteratorImpl α → Nat → List α
  | _, 0 => []
  | it, k + 1 => iteratorImpl.deref d it :: readN d (iteratorImpl.preInc it).2 k

/-- The element sequence produced by traversing from `b` up to `e`:
`e - b` dereference/increment steps. -/
def traverse (d : α) (b e : iteratorImpl α) : List α :=
  readN d b (iteratorImpl.sub e b).toNat

/-- Variant of `resize(n)` with explicit allocation outcomes, for the exception-safety
analysis.  The two heap-allocation points inside `resize` are:
`m_v.assign(...)` on a Small-to-Large crossing (outcome `ok1`; on failure the
vector is left in a valid but unspecified state, modelled by `g`, and
`bad_alloc` propagates), and the trailing `m_v.resize(m_size)` when it must
grow the vector (outcome `ok2`; `std::vector::resize` has the strong
guarantee, so on failure `m_v` is unchanged — but the `m_size` and
`m_is_small` assignments have already executed by then).  `Except.error t`
carries the container state `t` observable after the exception escapes. -/
def resizeE (K : Nat) (d : α) (g : List α) (s : VecSSO α) (n : Nat)
    (ok1 ok2 : Bool) : Except (VecSSO α) (VecSSO α) :=
  let step2 : VecSSO α → Except (VecSSO α) (VecSSO α) := fun s1 =>
    let s2 := { s1 with m_size := n, m_is_small := decide (n ≤ K) }
    if !s2.m_is_small then
      if s2.m_v.length < n && !ok2 then Except.error s2
      else Except.ok { s2 with m_v := listResize s2.m_v n d }
    else Except.ok s2
  if s.m_size ≠ 0 then
    if s.m_is_small && decide (n > K) then
      if !ok1 then Except.error { s with m_v := g }
      else step2 { s with m_v := s.m_a.take s.m_size }
    else if !s.m_is_small && decide (n ≤ K) then
      step2 { s with m_a := copyN s.m_v s.m_a n }
    else step2 s
  else step2 s

/-- When every allocation succeeds, `resizeE` computes exactly `resize`. -/
theorem resizeE_ok (K : Nat) (d : α) (g : List α) (s : VecSSO α) (n : Nat) :
    resizeE K d g s n true true = Except.ok (resize K d s n) := by
  unfold resizeE resize
  dsimp only
  split_ifs <;> simp_all

end vector_with_small_size_optimization

namespace vector_with_small_size_optimization

/-! Helper lemmas about the list-level operations. -/

theorem length_listResize (v : List α) (n : Nat) (d : α) :
    (listResize v n d).length = n := by
  simp [listResize]
  omega

theorem listResize_self (v : List α) (n : Nat) (d : α) (h : v.length = n) :
    listResize v n d = v := by
  subst h
  simp [listResize]

theorem getD_replicate (n i : Nat) (d : α) :
    (List.replicate n d).getD i d = d := by
  rcases Nat.lt_or_ge i n with h | h
  · simp [List.getD, List.getElem?_replicate, h]
  · have : (List.replicate n d).length ≤ i := by simpa using h
    simp [List.getD, List.getElem?_eq_none this]

theorem copyN_take (src dst : List α) (n : Nat) (h : n ≤ src.length) :
    (copyN src dst n).take n = src.take n := by
  have hlen : (src.take n).length = n := by simp [h]
  simp [copyN, List.take_append_eq_append_take, hlen]

theorem resize_m_size (K : Nat) (d : α) (s : VecSSO α) (n : Nat) :
    (resize K d s n).m_size = n := by
  unfold resize
  dsimp only
  split_ifs <;> rfl

theorem resize_m_is_small (K : Nat) (d : α) (s : VecSSO α) (n : Nat) :
    (resize K d s n).m_is_small = decide (n ≤ K) := by
  unfold resize
  dsimp only
  split_ifs <;> rfl

theorem resize_m_v_length (K : Nat) (d : α) (s : VecSSO α) (n : Nat)
    (h : ¬ n ≤ K) : (resize K d s n).m_v.length = n := by
  unfold resize
  dsimp only
  split_ifs with h1 h2 h3 h4 h5 h6 <;>
    first
      | exact length_listResize ..
      | simp_all

/-- Any state whose `m_size`, `m_is_small` and (in Large mode) `m_v` length
already match `resize(n)`'s postcondition is a fixed point of `resize(n)`:
no migration guard can fire, the `m_size` and `m_is_small` assignments are
no-ops, and `m_v.resize(n)` on a vector of length `n` changes nothing. -/
theorem resize_fixed (K : Nat) (d : α) (t : VecSSO α) (n : Nat)
    (h1 : t.m_size = n) (h2 : t.m_is_small = decide (n ≤ K))
    (h3 : t.m_is_small = false → t.m_v.length = n) :
    resize K d t n = t := by
  obtain ⟨v, a, b, m⟩ := t
  dsimp at h1 h2 h3
  subst h1
  unfold resize
  rcases le_or_lt m K with hK | hK
  · have hb : b = true := by simp [h2, hK]
    subst hb
    simp [decide_eq_true hK, Nat.not_lt.mpr hK]
  · have hb : b = false := by
      simp only [h2, decide_eq_false_iff_not]
      omega
    subst hb
    have hlen : v.length = m := h3 rfl
    simp [Nat.not_le.mpr hK, listResize_self _ _ _ hlen]

/-- Running `resize(n)` twice in a row is the same as running it once. -/
theorem resize_resize (K : Nat) (d : α) (s : VecSSO α) (n : Nat) :
    resize K d (resize K d s n) n = resize K d s n := by
  apply resize_fixed
  · exact resize_m_size K d s n
  · exact resize_m_is_small K d s n
  · intro h
    rw [resize_m_is_small] at h
    exact resize_m_v_length K d s n (by simpa using h)

instance (K : Nat) (s : VecSSO Nat) : Decidable (ModeInv K s) := by
  unfold ModeInv
  infer_instance

theorem readN_length (d : α) (k : Nat) (it : iteratorImpl α) :
    (readN d it k).length = k := by
  induction k generalizing it with
  | zero => rfl
  | succ k ih => simp [readN, ih]

theorem readN_getD (d : α) (k : Nat) :
    ∀ (it : iteratorImpl α) (i : Nat), i < k →
      (readN d it k).getD i d = it.buf.getD (it.m_ptr + i).toNat d := by
  induction k with
  | zero => omega
  | succ k ih =>
    intro it i hi
    cases i with
    | zero =>
      simp [readN, iteratorImpl.deref]
    | succ i =>
      have hstep := ih (iteratorImpl.preInc it).2 i (by omega)
      simp only [readN, List.getD_cons_succ]
      rw [hstep]
      simp only [iteratorImpl.preInc]
      congr 1
      omega

theorem getD_append_right (l₁ l₂ : List α) (i : Nat) (d : α)
    (h : l₁.length ≤ i) :
    (l₁ ++ l₂).getD i d = l₂.getD (i - l₁.length) d := by
  simp [List.getD, List.getElem?_append_right h]

/-! Claim theorems. -/

/-- Claim C7: iteration agrees with indexing: for every container, in either
mode, traversing from `begin()` to `end()` yields exactly `size()` elements,
in index order, each equal to the `operator[]` value at the corresponding
index. -/
theorem C7_iteration_matches_indexing (d : α) (s : VecSSO α) :
    (traverse d (beginIt s) (endIt s)).length = s.m_size ∧
      ∀ i, i < s.m_size →
        (traverse d (beginIt s) (endIt s)).getD i d = idx d s i := by
  have hcount : (iteratorImpl.sub (endIt s) (beginIt s)).toNat = s.m_size := by
    simp [iteratorImpl.sub, beginIt, endIt]
  constructor
  · rw [traverse, hcount, readN_length]
  · intro i hi
    rw [traverse, hcount, readN_getD d s.m_size (beginIt s) i hi]
    cases hb : s.m_is_small <;> simp [beginIt, idx, hb]

def c7example : VecSSO Nat := ⟨[5, 6, 7, 8, 9], [0, 0, 0, 0], false, 5⟩

theorem C7_iteration_matches_indexing_witness :
    (traverse 0 (beginIt c7example) (endIt c7example)).length =
        c7example.m_size ∧
      (traverse 0 (beginIt c7example) (endIt c7example)).getD 2 0 =
        idx 0 c7example 2 :=
  ⟨(C7_iteration_matches_indexing 0 c7example).1,
   (C7_iteration_matches_indexing 0 c7example).2 2 (by decide)⟩

/-- Claim C4: `swap` exchanges the complete observable state (mode, logical
size, and live element values) of two well-formed containers, in all four
mode pairings (Small/Small, Large/Large, and both mixed pairings). -/
theorem C4_swap_exchanges_state (K : Nat) (s x : VecSSO α)
    (hs : WF K s) (hx : WF K x) :
    observable (swap s x).1 = observable x ∧
      observable (swap s x).2 = observable s := by
  obtain ⟨haS, hmS, hvS⟩ := hs
  obtain ⟨haX, hmX, hvX⟩ := hx
  unfold observable visible swap
  cases hbs : s.m_is_small <;> cases hbx : x.m_is_small <;>
    simp_all [copyN_take]

def c4X : VecSSO Nat := ⟨[], [1, 2, 0, 0], true, 2⟩

def c4Y : VecSSO Nat :=
  ⟨[10, 11, 12, 13, 14, 15, 16, 17, 18, 19], [0, 0, 0, 0], false, 10⟩

theorem C4_swap_exchanges_state_witness :
    observable (swap c4X c4Y).1 = observable c4Y ∧
      observable (swap c4X c4Y).2 = observable c4X :=
  C4_swap_exchanges_state 4 c4X c4Y (by decide) (by decide)

/-- Claim C1: with K = 4, starting from an empty container, after
`resize(3)`, setting elements 0..2 to `a`,`b`,`c`, then `resize(6)`
(crossing to Large: the old size = 3 elements are preserved and 3 default
slots appended) and `resize(2)` (crossing back to Small, copying the new
size = 2 elements), the container satisfies `element[0] == a`,
`element[1] == b`, `size() == 2`, and Mode == Small. -/
theorem C1_growth_shrink_round_trip (α : Type) (d a b c : α) :
    (resize 4 d (setIdx (setIdx (setIdx (resize 4 d (init 4 d) 3) 0 a) 1 b) 2 c)
          6).m_is_small = false ∧
    visible (resize 4 d (setIdx (setIdx (setIdx (resize 4 d (init 4 d) 3) 0 a) 1 b) 2 c)
          6) = [a, b, c, d, d, d] ∧
    idx d (resize 4 d (resize 4 d
          (setIdx (setIdx (setIdx (resize 4 d (init 4 d) 3) 0 a) 1 b) 2 c) 6) 2) 0 = a ∧
    idx d (resize 4 d (resize 4 d
          (setIdx (setIdx (setIdx (resize 4 d (init 4 d) 3) 0 a) 1 b) 2 c) 6) 2) 1 = b ∧
    size (resize 4 d (resize 4 d
          (setIdx (setIdx (setIdx (resize 4 d (init 4 d) 3) 0 a) 1 b) 2 c) 6) 2) = 2 ∧
    (resize 4 d (resize 4 d
          (setIdx (setIdx (setIdx (resize 4 d (init 4 d) 3) 0 a) 1 b) 2 c) 6) 2).m_is_small
        = true :=
  ⟨rfl, rfl, rfl, rfl, rfl, rfl⟩

/-- Claim C5: the invariant Mode == Small ⟺ size ≤ K holds in the initial
state (Small mode, size 0) and is preserved by every public operation:
`resize` with any argument (which re-establishes it unconditionally), and
`swap` between any two containers each satisfying it. -/
theorem C5_mode_size_invariant (K : Nat) (d : α) :
    ModeInv K (init K d) ∧
      (∀ (s : VecSSO α) (n : Nat), ModeInv K (resize K d s n)) ∧
      (∀ s x : VecSSO α, ModeInv K s → ModeInv K x →
        ModeInv K (swap s x).1 ∧ ModeInv K (swap s x).2) := by
  refine ⟨by simp [ModeInv, init], fun s n => ?_, fun s x hs hx => ⟨hx, hs⟩⟩
  show (resize K d s n).m_is_small = decide ((resize K d s n).m_size ≤ K)
  rw [resize_m_is_small, resize_m_size]

theorem C5_mode_size_invariant_witness :
    ModeInv 4 (swap (⟨[], [1, 2, 0, 0], true, 2⟩ : VecSSO Nat)
        ⟨[5, 6, 7, 8, 9], [0, 0, 0, 0], false, 5⟩).1 ∧
      ModeInv 4 (swap (⟨[], [1, 2, 0, 0], true, 2⟩ : VecSSO Nat)
        ⟨[5, 6, 7, 8, 9], [0, 0, 0, 0], false, 5⟩).2 :=
  (C5_mode_size_invariant 4 0).2.2 ⟨[], [1, 2, 0, 0], true, 2⟩
    ⟨[5, 6, 7, 8, 9], [0, 0, 0, 0], false, 5⟩ (by decide) (by decide)

/-- Claim C6: for every container and every n, immediately after
`resize(n)`: `size()` returns n, and the Mode is Small iff n ≤ K. -/
theorem C6_resize_postcondition (K : Nat) (d : α) (s : VecSSO α) (n : Nat) :
    size (resize K d s n) = n ∧
      ((resize K d s n).m_is_small = true ↔ n ≤ K) := by
  refine ⟨resize_m_size K d s n, ?_⟩
  rw [resize_m_is_small]
  simp

/-- Claim C8: `resize` is idempotent: calling `resize(n)` a second time with
the same n and no intervening mutation leaves `size()`, the Mode, and all
element values at indices 0..n-1 unchanged from the state after the first
`resize(n)`. -/
theorem C8_resize_idempotent (K : Nat) (d : α) (s : VecSSO α) (n : Nat) :
    size (resize K d (resize K d s n) n) = size (resize K d s n) ∧
      (resize K d (resize K d s n) n).m_is_small = (resize K d s n).m_is_small ∧
      ∀ i, i < n →
        idx d (resize K d (resize K d s n) n) i = idx d (resize K d s n) i := by
  rw [resize_resize]
  exact ⟨rfl, rfl, fun i _ => rfl⟩

theorem C8_resize_idempotent_witness :
    idx 0 (resize 4 0 (resize 4 0 (init 4 (0 : Nat)) 6) 6) 2 =
      idx 0 (resize 4 0 (init 4 (0 : Nat)) 6) 2 :=
  (C8_resize_idempotent 4 0 (init 4 0) 6).2.2 2 (by decide)

/-- Claim C9: for every iterator position, the postfix increment and postfix
decrement operators first advance (resp. retreat) the underlying address and
then return the iterator at its new, post-mutation position (one element
past resp. before the starting position), not a snapshot of the pre-mutation
position. -/
theorem C9_postfix_returns_new_position (α : Type) (it : iteratorImpl α) :
    (iteratorImpl.postInc it).1 = (iteratorImpl.postInc it).2 ∧
      (iteratorImpl.postInc it).1.m_ptr = it.m_ptr + 1 ∧
      (iteratorImpl.postDec it).1 = (iteratorImpl.postDec it).2 ∧
      (iteratorImpl.postDec it).1.m_ptr = it.m_ptr - 1 :=
  ⟨rfl, rfl, rfl, rfl⟩

/-- Claim C10: for every iterator position, the prefix increment and prefix
decrement operators advance (resp. retreat) the underlying address of the
iterator's own state but return a copy at the old, pre-mutation position —
the conventional prefix/postfix roles are exactly swapped. -/
theorem C10_prefix_returns_old_position (α : Type) (it : iteratorImpl α) :
    (iteratorImpl.preInc it).1 = it ∧
      (iteratorImpl.preInc it).2.m_ptr = it.m_ptr + 1 ∧
      (iteratorImpl.preDec it).1 = it ∧
      (iteratorImpl.preDec it).2.m_ptr = it.m_ptr - 1 :=
  ⟨rfl, rfl, rfl, rfl⟩

/-- Concrete run for the C2 counterexample: from empty, `resize(6)` (Large,
six default slots), write 7 into slot 0, `resize(0)` (back to Small; the
Large storage is not shrunk and keeps its 6 slots), leaving a Small-mode,
size-0 container whose abandoned Large storage still holds 7 at index 0. -/
def c2pre : VecSSO Nat :=
  resize 4 0 (setIdx (resize 4 0 (init 4 0) 6) 0 7) 0

/-- Claim C2 counterexample: `c2pre` is Small with size 0, and `resize(10)`
crosses to Large, so the claim requires every slot 0..9 of the active Large
storage to hold the default value 0; but slot 0 (which lies in the claimed
range, from the old size 0 up to 9) holds the stale value 7. -/
theorem C2_counterexample :
    c2pre.m_is_small = true ∧ c2pre.m_size = 0 ∧ 10 > 4 ∧
      (resize 4 0 c2pre 10).m_is_small = false ∧
      (resize 4 0 c2pre 10).m_v.getD 0 0 = 7 ∧ (7 : Nat) ≠ 0 := by
  decide

/-- Claim C2 (amended): after a Small-to-Large `resize(n)` (`n > K`) on a
well-formed container, the Large-storage slots from the old size up to n-1
hold default-constructed values provided the old size is positive (the
migration `assign` then replaces the whole Large storage) or the Large
storage is empty; when the old size is 0 no migration copy is performed, so
slots below the prior Large-storage length keep their stale values and only
the slots beyond it are default-constructed. -/
theorem C2_amended_default_slots (K : Nat) (d : α) (s : VecSSO α) (n : Nat)
    (hwf : WF K s) (hsm : s.m_is_small = true) (hn : K < n)
    (hpre : 0 < s.m_size ∨ s.m_v = []) :
    ∀ i, s.m_size ≤ i → i < n → (resize K d s n).m_v.getD i d = d := by
  obtain ⟨ha, hm, hv⟩ := hwf
  intro i hi1 hi2
  have hszK : s.m_size ≤ K := by
    rw [hsm] at hm
    simpa using hm.symm
  rcases Nat.eq_zero_or_pos s.m_size with h0 | hpos
  · have hnil : s.m_v = [] := by
      rcases hpre with hpos | hnil
      · omega
      · exact hnil
    unfold resize
    simp only [h0, ne_eq, not_true_eq_false, if_false, hnil]
    have : ¬ n ≤ K := by omega
    simp [listResize, this, getD_replicate]
  · have hne : s.m_size ≠ 0 := by omega
    have hnK : ¬ n ≤ K := by omega
    have hstep : resize K d s n =
        { s with m_v := listResize (s.m_a.take s.m_size) n d,
                 m_is_small := false, m_size := n } := by
      unfold resize
      simp [hne, hsm, hn, hnK]
    rw [hstep]
    have hlenw : (s.m_a.take s.m_size).length = s.m_size := by
      simp [ha]
      omega
    dsimp only
    rw [listResize, hlenw,
      List.take_of_length_le (by omega : (s.m_a.take s.m_size).length ≤ n),
      getD_append_right _ _ _ _ (by omega : (s.m_a.take s.m_size).length ≤ i)]
    exact getD_replicate ..

theorem C2_amended_default_slots_witness :
    (resize 4 0 (⟨[], [1, 2, 0, 0], true, 2⟩ : VecSSO Nat) 6).m_v.getD 3 0 = 0 :=
  C2_amended_default_slots 4 0 ⟨[], [1, 2, 0, 0], true, 2⟩ 6 (by decide)
    (by decide) (by decide) (Or.inl (by decide)) 3 (by decide) (by decide)

/-- Reachable, well-formed Large-mode pre-state for the C3 counterexample:
size 5, Large storage `[1,2,3,4,5]`. -/
def c3pre : VecSSO Nat := ⟨[1, 2, 3, 4, 5], [0, 0, 0, 0], false, 5⟩

/-- Claim C3 counterexample: on the well-formed state `c3pre`, `resize(7)`
stays Large and must grow the heap vector from length 5 to 7; if that
allocation fails, the exception escapes from a state whose `m_size` is
already 7 and whose observable state therefore differs from the state
before the call — `resize` is not atomic for this allocation failure. -/
theorem C3_counterexample :
    WF 4 c3pre ∧
      resizeE 4 0 [] c3pre 7 true false =
        Except.error ⟨[1, 2, 3, 4, 5], [0, 0, 0, 0], false, 7⟩ ∧
      observable (⟨[1, 2, 3, 4, 5], [0, 0, 0, 0], false, 7⟩ : VecSSO Nat) ≠
        observable c3pre := by
  refine ⟨by decide, rfl, by decide⟩

/-- Claim C3 (amended): failure of the allocation performed during the
migration copy (the Small-to-Large `m_v.assign`) leaves the observable
state exactly as before the call, because that copy precedes the `m_size`
and `m_is_small` updates; but the trailing `m_v.resize(m_size)` executes
after those updates, so an allocation failure there leaves the container
with the new size and the new (Large) mode flag rather than with its prior
observable state. -/
theorem C3_amended_failure_atomicity (K : Nat) (d : α) (g : List α)
    (s : VecSSO α) (n : Nat) :
    (∀ t, resizeE K d g s n false true = Except.error t →
      observable t = observable s) ∧
    (∀ t, resizeE K d g s n true false = Except.error t →
      t.m_size = n ∧ t.m_is_small = decide (n ≤ K)) := by
  constructor
  · intro t h
    unfold resizeE at h
    dsimp only at h
    split_ifs at h <;> cases h <;> simp_all [observable, visible]
  · intro t h
    unfold resizeE at h
    dsimp only at h
    split_ifs at h <;> cases h <;> simp_all

theorem C3_amended_failure_atomicity_witness :
    observable (⟨[9, 9, 9], [1, 2, 0, 0], true, 2⟩ : VecSSO Nat) =
      observable (⟨[], [1, 2, 0, 0], true, 2⟩ : VecSSO Nat) :=
  (C3_amended_failure_atomicity 4 0 [9, 9, 9] ⟨[], [1, 2, 0, 0], true, 2⟩ 6).1
    ⟨[9, 9, 9], [1, 2, 0, 0], true, 2⟩ rfl

end vector_with_small_size_optimization

end MrptContainers
